import Mathlib

/-!
Verification development for the `serde_flexitos` crate: flexible
serialization and deserialization of trait objects with serde.

The development shallowly embeds the crate's data model and operations:

* a serde-style structured data model (`Value`), standing in for the
  JSON-like self-describing formats the crate is used with;
* `MapRegistry` with `register` / `get_deserialize_fn` (src/lib.rs);
* the single-entry map serializer `SerializeTraitObject` (src/ser.rs);
* the trait-object visitor `DeserializeTraitObject::visit_map`, the
  sequence adapter `DeserializeVecWithTraitObject::visit_seq` (src/de.rs);
* the permissive visitors (src/permissive.rs);
* the `Ident` string codec (src/id.rs);
* the `FirstMapRegistry` policy (examples/first_registration.rs).

Trait objects `Box<dyn O>` are modelled by an arbitrary Lean type `O`;
deserialize functions `DeserializeFn<O>` become `Value → Except String O`.
Map accesses are modelled explicitly as association lists of entries, so
that consumption of entries by a visitor is observable.
-/

set_option autoImplicit false

/-- Serde-style structured data model: the self-describing values a
JSON-like format exchanges with serializers and deserializers.
Map keys are strings, as in JSON (identifiers serialize as strings). -/
inductive Value where
  | vstr : String → Value
  | vnat : Nat → Value
  | vmap : List (String × Value) → Value
  | vseq : List Value → Value

/-- Model of `DeserializeFn<O>`: a deserialize function taking a type-erased
decoder input and producing a boxed trait object or an error
(src/lib.rs, type alias `DeserializeFn`). -/
def DeserializeFn (O : Type) : Type := Value → Except String O

/-- Model of `GetError<I>`: error while getting a deserialize function
(src/lib.rs, enum `GetError`). -/
inductive GetError (I : Type) where
  | notRegistered : I → GetError I
  | multipleRegistrations : I → GetError I
deriving DecidableEq

/-- First-match lookup in an association list, the semantics of
`BTreeMap::get` restricted to the maps reachable here (unique keys). -/
def assocLookup {I B : Type} [DecidableEq I] : List (I × B) → I → Option B
  | [], _ => none
  | (k, v) :: rest, id => if k = id then some v else assocLookup rest id

/-- Model of `MapRegistry<O, I>`: maps identifiers to optional deserialize-function
slots; `none` in a slot is the tombstone left by a duplicate registration
(src/lib.rs, struct `MapRegistry`). -/
structure MapRegistry (O : Type) (I : Type) where
  deserialize_fns : List (I × Option (DeserializeFn O))
  trait_object_name : String

namespace MapRegistry

variable {O I : Type} [DecidableEq I]

/-- Model of `MapRegistry::new` (src/lib.rs). -/
def new (trait_object_name : String) : MapRegistry O I :=
  { deserialize_fns := [], trait_object_name }

/-- Model of `MapRegistry::register` (src/lib.rs):
`entry(id).and_modify(|v| { v.take(); }).or_insert_with(|| Some(f))`.
If the key is present its slot is overwritten with `none` (the effect of
`Option::take`), otherwise `some f` is inserted. -/
def register (r : MapRegistry O I) (id : I) (f : DeserializeFn O) :
    MapRegistry O I :=
  { r with deserialize_fns :=
      if (assocLookup r.deserialize_fns id).isSome then
        r.deserialize_fns.map (fun p => if p.1 = id then (p.1, none) else p)
      else
        r.deserialize_fns ++ [(id, some f)] }

/-- Model of `MapRegistry::get_deserialize_fn` (src/lib.rs). -/
def get_deserialize_fn (r : MapRegistry O I) (id : I) :
    Except (GetError I) (DeserializeFn O) :=
  match assocLookup r.deserialize_fns id with
  | none => .error (.notRegistered id)
  | some none => .error (.multipleRegistrations id)
  | some (some f) => .ok f

/-- Model of `MapRegistry::get_trait_object_name` (src/lib.rs). -/
def get_trait_object_name (r : MapRegistry O I) : String :=
  r.trait_object_name

end MapRegistry

/-! ## Serialization (src/ser.rs)

A serializer for the `Value` data model. `serialize_map` opens a map
builder, `serialize_entry` appends one key-value pair, `end` produces the
final `Value` — the behavior of a JSON-like value serializer driven by
`SerializeTraitObject::serialize`. -/

/-- The state of an in-progress map serialization: the entries written so
far. `serializer.serialize_map(len_hint)` returns this builder; value
serializers ignore the length hint. -/
structure SerializeMap where
  entries : List (String × Value)

/-- Model of `Serializer::serialize_map(len)`: open a map builder. The length
argument is a hint only, not used by the value serializer. -/
def serializeMapBegin (lenHint : Option Nat) : SerializeMap :=
  let _ := lenHint
  { entries := [] }

/-- Model of `SerializeMap::serialize_entry(key, value)`: append one pair.
Identifier keys serialize as strings (`Ident` uses `collect_str`,
`&'static str` serializes as itself). -/
def SerializeMap.serializeEntry (m : SerializeMap) (key : String)
    (value : Value) : SerializeMap :=
  { entries := m.entries ++ [(key, value)] }

/-- The `end` call of `SerializeMap`: produce the serialized map. -/
def SerializeMap.finish (m : SerializeMap) : Value :=
  .vmap m.entries

/-- Model of `SerializeTraitObject::serialize` (src/ser.rs): serialize a trait
object as a single id-value pair, where `payload` is the trait object's
own type-erased encoding (`erased_serde::serialize` through `Wrap`).
`serialize_trait_object` in src/lib.rs forwards directly to this. -/
def serialize_trait_object (id : String) (payload : Value) : Value :=
  (((serializeMapBegin (some 1)).serializeEntry id payload)).finish

/-! ## Deserialization of a single trait object (src/de.rs)

The visitors are driven by a `MapAccess`; we model it as the list of
not-yet-consumed entries. `visit_map` returns, besides its value, the
state of the map access when the visitor returns: an optional pending
value (a value whose key was consumed by `next_key_seed` but which was
itself never consumed by `next_value_seed`) and the remaining entries. -/

/-- Errors produced through `serde::de::Error::custom` by this crate's
visitors, plus the format's own type error, separated by origin. -/
inductive DeError (I : Type) where
  | expectingIdValuePair : String → DeError I
  | registry : GetError I → DeError I
  | payload : String → DeError I
  | invalidType : DeError I
deriving DecidableEq

/-- Model of `IdToDeserializeFn::deserialize` (src/de.rs): deserialize the
identifier from the map key (for string identifiers, the key itself),
then resolve it with `get_deserialize_fn`, mapping registry errors
through `de::Error::custom`. -/
def idToDeserializeFn {O I : Type} [DecidableEq I] (r : MapRegistry O I)
    (id : I) : Except (DeError I) (DeserializeFn O) :=
  match r.get_deserialize_fn id with
  | .ok f => .ok f
  | .error e => .error (.registry e)

/-- Model of `DeserializeWithFn::deserialize` (src/de.rs): run the resolved
deserialize function on the type-erased value, mapping its error through
`de::Error::custom`. -/
def deserializeWithFn {O I : Type} (f : DeserializeFn O) (v : Value) :
    Except (DeError I) O :=
  match f v with
  | .ok o => .ok o
  | .error msg => .error (.payload msg)

/-- Model of `DeserializeTraitObject::visit_map` (src/de.rs): read one key with
`next_key_seed(IdToDeserializeFn)` — failing with the `expecting` message
if the map has no entries — then read the value with
`next_value_seed(DeserializeWithFn)`. On success the returned list is
the entries the visitor left unconsumed. -/
def DeserializeTraitObject.visitMap {O I : Type} [DecidableEq I]
    (r : MapRegistry O I) (entries : List (I × Value)) :
    Except (DeError I) (O × List (I × Value)) :=
  match entries with
  | [] => .error (.expectingIdValuePair r.trait_object_name)
  | (key, value) :: rest =>
    match idToDeserializeFn r key with
    | .error e => .error e
    | .ok f =>
      match deserializeWithFn f value with
      | .error e => .error e
      | .ok o => .ok (o, rest)

/-- Model of `Registry::deserialize_trait_object` (src/lib.rs), driven by a
`Value`-backed deserializer: `deserialize_map` hands the entries of a map
value to `DeserializeTraitObject::visit_map` and rejects any other value
shape with a type error. -/
def deserialize_trait_object {O : Type} (r : MapRegistry O String)
    (v : Value) : Except (DeError String) O :=
  match v with
  | .vmap entries =>
    match DeserializeTraitObject.visitMap r entries with
    | .ok (o, _) => .ok o
    | .error e => .error e
  | _ => .error .invalidType

/-! ## Sequence adapter (src/de.rs, `DeserializeVecWithTraitObject`) -/

/-- A `Vec`: a growable container with a capacity (allocation size) and
its data. Only `data` is observable content; `capacity` models the
allocation that `Vec::with_capacity` pre-sizes. -/
structure RVec (A : Type) where
  capacity : Nat
  data : List A

/-- Model of `Vec::new()`. -/
def RVec.new {A : Type} : RVec A :=
  { capacity := 0, data := [] }

/-- Model of `Vec::with_capacity(c)`. -/
def RVec.withCapacity {A : Type} (c : Nat) : RVec A :=
  { capacity := c, data := [] }

/-- Model of `Vec::push`: appends, growing the allocation when full. -/
def RVec.push {A : Type} (v : RVec A) (a : A) : RVec A :=
  { capacity := max v.capacity (v.data.length + 1), data := v.data ++ [a] }

/-- The `while let Some(trait_object) = seq.next_element_seed(...)` loop
of `DeserializeVecWithTraitObject::visit_seq` (src/de.rs): each element
of the sequence is deserialized with `DeserializeTraitObject`, and pushed
into the accumulating vector. -/
def visitSeqLoop {O : Type} (r : MapRegistry O String) (acc : RVec O) :
    List Value → Except (DeError String) (RVec O)
  | [] => .ok acc
  | v :: rest =>
    match deserialize_trait_object r v with
    | .error e => .error e
    | .ok o => visitSeqLoop r (acc.push o) rest

/-- Model of `DeserializeVecWithTraitObject::visit_seq` (src/de.rs): start from
`Vec::with_capacity(size_hint)` when the decoder provides a size hint and
`Vec::new()` otherwise, then run the element loop. The size hint of the
underlying decoder is an arbitrary `Option Nat`, independent of the
actual elements. -/
def DeserializeVecWithTraitObject.visitSeq {O : Type}
    (r : MapRegistry O String) (sizeHint : Option Nat)
    (elements : List Value) : Except (DeError String) (RVec O) :=
  let vec : RVec O :=
    match sizeHint with
    | some capacity => RVec.withCapacity capacity
    | none => RVec.new
  visitSeqLoop r vec elements

/-! ## Permissive deserialization (src/permissive.rs) -/

/-- Model of `PermissiveIdToDeserializeFn::visit_str` (src/permissive.rs): resolve
the identifier; `NotRegistered` becomes `none` instead of an error, any
other registry error is still an error. -/
def permissiveIdToDeserializeFn {O I : Type} [DecidableEq I]
    (r : MapRegistry O I) (key : I) :
    Except (DeError I) (Option (DeserializeFn O)) :=
  match r.get_deserialize_fn key with
  | .ok f => .ok (some f)
  | .error (.notRegistered _) => .ok none
  | .error e => .error (.registry e)

/-- Model of `PermissiveDeserializeTraitObject::visit_map` (src/permissive.rs):
read one key with `next_key_seed(PermissiveIdToDeserializeFn)`; if it
resolves to a deserialize function, read the value with it; if it
resolves to `none`, return `none` WITHOUT calling `next_value_seed`.
Besides the optional value, the result records the map-access state when
the visitor returns: the pending value left unconsumed in the decoder
(its key was read, the value was not) and the remaining entries. -/
def PermissiveDeserializeTraitObject.visitMap {O I : Type} [DecidableEq I]
    (r : MapRegistry O I) (entries : List (I × Value)) :
    Except (DeError I) (Option O × Option Value × List (I × Value)) :=
  match entries with
  | [] => .error (.expectingIdValuePair r.trait_object_name)
  | (key, value) :: rest =>
    match permissiveIdToDeserializeFn r key with
    | .error e => .error e
    | .ok (some f) =>
      match deserializeWithFn f value with
      | .error e => .error e
      | .ok o => .ok (some o, none, rest)
    | .ok none => .ok (none, some value, rest)

/-! ## Identifiers (src/id.rs)

Strings are modelled as lists of characters; the source's byte indices
coincide with character indices on the inputs considered (the separator
`'/'` is a one-byte character, and indices are only ever taken at or
before separator positions found by `find`). -/

/-- The reserved separator (src/id.rs, `SEPARATOR`). -/
def SEPARATOR : Char := '/'

/-- Model of `Ident`: an identifier of one, two or three string segments
(src/id.rs, enum `Ident`). -/
inductive Ident where
  | i1 : List Char → Ident
  | i2 : List Char → List Char → Ident
  | i3 : List Char → List Char → List Char → Ident
deriving DecidableEq

/-- Model of `Display for Ident` (src/id.rs): segments joined by the separator.
`Serialize for Ident` emits exactly this string via `collect_str`. -/
def Ident.display : Ident → List Char
  | .i1 a => a
  | .i2 a b => a ++ [SEPARATOR] ++ b
  | .i3 a b c => a ++ [SEPARATOR] ++ b ++ [SEPARATOR] ++ c

/-- Model of `str::find(char)`: index of the first occurrence. -/
def strFind (s : List Char) (c : Char) : Option Nat :=
  s.findIdx? (fun x => x = c)

/-- Model of `Deserialize for Ident` (src/id.rs), after the inner string has been
deserialized: parse the string back into an `Ident`. The translation is
line-for-line faithful, including the shadowing `let (b, c) =
str.split_at(idx_b)` which splits the original `str` (not `b_no_sep`,
where `idx_b` was found). -/
def Ident.deserialize (str : List Char) : Ident :=
  match strFind str SEPARATOR with
  | none => .i1 str
  | some idxA =>
    let a := str.take idxA
    let b := str.drop idxA
    let bNoSep := b.drop 1
    match strFind bNoSep SEPARATOR with
    | none => .i2 a bNoSep
    | some idxB =>
      let b := str.take idxB
      let c := str.drop idxB
      let cNoSep := c.drop 1
      .i3 a b cNoSep

/-! ## First-registration-wins registry (examples/first_registration.rs) -/

/-- Model of `FirstMapRegistry<O, I>` (examples/first_registration.rs): like
`MapRegistry` but the slots are not optional — there is no tombstone. -/
structure FirstMapRegistry (O : Type) (I : Type) where
  deserialize_fns : List (I × DeserializeFn O)
  trait_object_name : String

namespace FirstMapRegistry

variable {O I : Type} [DecidableEq I]

/-- Model of `FirstMapRegistry::new` (examples/first_registration.rs). -/
def new (trait_object_name : String) : FirstMapRegistry O I :=
  { deserialize_fns := [], trait_object_name }

/-- Model of `FirstMapRegistry::register` (examples/first_registration.rs):
`entry(id).or_insert(f)` — a duplicate registration for a present key is
ignored. -/
def register (r : FirstMapRegistry O I) (id : I) (f : DeserializeFn O) :
    FirstMapRegistry O I :=
  { r with deserialize_fns :=
      if (assocLookup r.deserialize_fns id).isSome then
        r.deserialize_fns
      else
        r.deserialize_fns ++ [(id, f)] }

/-- Model of `FirstMapRegistry::get_deserialize_fn`
(examples/first_registration.rs): `get(&id).ok_or(NotRegistered)`. -/
def get_deserialize_fn (r : FirstMapRegistry O I) (id : I) :
    Except (GetError I) (DeserializeFn O) :=
  match assocLookup r.deserialize_fns id with
  | some f => .ok f
  | none => .error (.notRegistered id)

/-- A sequence of `register` calls, in order. -/
def registerAll (r : FirstMapRegistry O I)
    (regs : List (I × DeserializeFn O)) : FirstMapRegistry O I :=
  regs.foldl (fun r p => r.register p.1 p.2) r

end FirstMapRegistry

/-! ## Concrete instantiation (crate documentation and examples)

The `Example` trait with concrete types `Foo(String)` and `Bar(usize)`
used throughout the crate's documentation and examples, for concrete
witnesses. -/

/-- Model of `Box<dyn Example>` with concrete types `Foo(String)` / `Bar(usize)`. -/
inductive Example where
  | foo : String → Example
  | bar : Nat → Example
deriving DecidableEq

/-- Model of `Example::id` (examples/simple.rs): the identifier of the concrete
type behind the trait object. -/
def Example.id : Example → String
  | .foo _ => "Foo"
  | .bar _ => "Bar"

/-- The type-erased encoding of an `Example` value: a newtype struct
serializes as its inner value. -/
def Example.encode : Example → Value
  | .foo s => .vstr s
  | .bar n => .vnat n

/-- The registered deserialize function for `Foo`
(`|d| Ok(Box::new(erased_serde::deserialize::<Foo>(d)?))`). -/
def Foo.deserializeFn : DeserializeFn Example := fun v =>
  match v with
  | .vstr s => .ok (.foo s)
  | _ => .error "invalid type: expected a string"

/-- The registered deserialize function for `Bar`. -/
def Bar.deserializeFn : DeserializeFn Example := fun v =>
  match v with
  | .vnat n => .ok (.bar n)
  | _ => .error "invalid type: expected an integer"

/-- The registry of examples/simple.rs: `Foo` and `Bar` registered once
each. -/
def exampleRegistry : MapRegistry Example String :=
  ((MapRegistry.new "Example").register "Foo" Foo.deserializeFn).register
    "Bar" Bar.deserializeFn

/-- A registry in which "Foo" was registered twice (tombstoned) and "Baz"
never registered. -/
def duplicateRegistry : MapRegistry Example String :=
  (((MapRegistry.new "Example").register "Foo" Foo.deserializeFn).register
    "Foo" Foo.deserializeFn).register "Bar" Bar.deserializeFn

/-- Specification helper: decode each element of a sequence with the
tagged-envelope codec, in order, stopping at the first error. Used to
state what the sequence adapter must produce. -/
def decodeAll {O : Type} (r : MapRegistry O String) :
    List Value → Except (DeError String) (List O)
  | [] => .ok []
  | v :: rest =>
    match deserialize_trait_object r v with
    | .error e => .error e
    | .ok o =>
      match decodeAll r rest with
      | .error e => .error e
      | .ok os => .ok (o :: os)

/-! ## Helper lemmas about association lists -/

theorem assocLookup_append {I B : Type} [DecidableEq I]
    (l₁ l₂ : List (I × B)) (id : I) :
    assocLookup (l₁ ++ l₂) id =
      match assocLookup l₁ id with
      | some v => some v
      | none => assocLookup l₂ id := by
  induction l₁ with
  | nil => simp [assocLookup]
  | cons p rest ih =>
    obtain ⟨k, v⟩ := p
    by_cases h : k = id <;> simp [assocLookup, h, ih]

theorem assocLookup_map_tombstone {I B : Type} [DecidableEq I]
    (l : List (I × Option B)) (id : I) :
    assocLookup (l.map (fun p => if p.1 = id then (p.1, none) else p)) id =
      (assocLookup l id).map (fun _ => none) := by
  induction l with
  | nil => simp [assocLookup]
  | cons p rest ih =>
    obtain ⟨k, v⟩ := p
    rw [List.map_cons]
    by_cases h : k = id
    · subst h
      rw [if_pos rfl]
      simp [assocLookup, ih]
    · rw [if_neg h]
      simp [assocLookup, h, ih]

/-! ## Claim theorems -/

/-- C4: for every registry state and id, `register(id, f)` turns an
absent slot into a live entry holding `f`, turns a live slot into a
permanent tombstone (still mapped, but empty), and leaves a tombstoned
slot tombstoned — a tombstone never reverts to a live entry. `register`
itself is total (it never returns an error), as its type shows. -/
theorem register_slot_transition {O I : Type} [DecidableEq I]
    (r : MapRegistry O I) (id : I) (f : DeserializeFn O) :
    (assocLookup r.deserialize_fns id = none →
      assocLookup (r.register id f).deserialize_fns id = some (some f)) ∧
    (∀ g, assocLookup r.deserialize_fns id = some (some g) →
      assocLookup (r.register id f).deserialize_fns id = some none) ∧
    (assocLookup r.deserialize_fns id = some none →
      assocLookup (r.register id f).deserialize_fns id = some none) := by
  refine ⟨fun h => ?_, fun g h => ?_, fun h => ?_⟩ <;>
    simp [MapRegistry.register, h, assocLookup_append,
      assocLookup_map_tombstone, assocLookup]

/-- Witness for C4 at concrete registries: fresh insertion, duplicate
registration of a live id, and registration into a tombstone. -/
theorem register_slot_transition_witness :
    assocLookup ((MapRegistry.new "Example" :
        MapRegistry Example String).register "Foo"
        Foo.deserializeFn).deserialize_fns "Foo" = some (some Foo.deserializeFn) ∧
    assocLookup (exampleRegistry.register "Foo"
        Bar.deserializeFn).deserialize_fns "Foo" = some none ∧
    assocLookup (duplicateRegistry.register "Foo"
        Foo.deserializeFn).deserialize_fns "Foo" = some none :=
  ⟨(register_slot_transition (MapRegistry.new "Example") "Foo"
      Foo.deserializeFn).1 rfl,
   (register_slot_transition exampleRegistry "Foo" Bar.deserializeFn).2.1
      Foo.deserializeFn rfl,
   (register_slot_transition duplicateRegistry "Foo" Foo.deserializeFn).2.2 rfl⟩

/-- C5: for every registry state and id, `get_deserialize_fn` returns
the stored function on a live slot, `NotRegistered` when the id is
absent, and `MultipleRegistrations` when the slot is tombstoned. -/
theorem get_deserialize_fn_cases {O I : Type} [DecidableEq I]
    (r : MapRegistry O I) (id : I) :
    (∀ f, assocLookup r.deserialize_fns id = some (some f) →
      r.get_deserialize_fn id = .ok f) ∧
    (assocLookup r.deserialize_fns id = none →
      r.get_deserialize_fn id = .error (.notRegistered id)) ∧
    (assocLookup r.deserialize_fns id = some none →
      r.get_deserialize_fn id = .error (.multipleRegistrations id)) := by
  refine ⟨fun f h => ?_, fun h => ?_, fun h => ?_⟩ <;>
    simp [MapRegistry.get_deserialize_fn, h]

/-- Witness for C5 at a concrete registry: a live id, an unknown id, and
a tombstoned id. -/
theorem get_deserialize_fn_cases_witness :
    duplicateRegistry.get_deserialize_fn "Bar" = .ok Bar.deserializeFn ∧
    duplicateRegistry.get_deserialize_fn "Baz" =
      .error (.notRegistered "Baz") ∧
    duplicateRegistry.get_deserialize_fn "Foo" =
      .error (.multipleRegistrations "Foo") :=
  ⟨(get_deserialize_fn_cases duplicateRegistry "Bar").1 Bar.deserializeFn rfl,
   (get_deserialize_fn_cases duplicateRegistry "Baz").2.1 rfl,
   (get_deserialize_fn_cases duplicateRegistry "Foo").2.2 rfl⟩

/-- C1: round-trip. For every concrete type `T` registered under `id`
in registry `r` (its deserialize function `dfn` is resolvable and
inverts `T`'s own encoding up to the upcast into the trait object),
serializing a value of `T` as a tagged envelope and deserializing the
envelope through `r` recovers exactly the original value (upcast). -/
theorem serialize_then_deserialize_roundtrip {O T : Type}
    (r : MapRegistry O String) (id : String) (encode : T → Value)
    (upcast : T → O) (dfn : DeserializeFn O)
    (hreg : r.get_deserialize_fn id = .ok dfn)
    (hconcrete : ∀ t : T, dfn (encode t) = .ok (upcast t)) (v : T) :
    deserialize_trait_object r (serialize_trait_object id (encode v)) =
      .ok (upcast v) := by
  simp [serialize_trait_object, serializeMapBegin, SerializeMap.serializeEntry,
    SerializeMap.finish, deserialize_trait_object,
    DeserializeTraitObject.visitMap, idToDeserializeFn, hreg,
    deserializeWithFn, hconcrete v]

/-- Witness for C1: the `Foo("A")` round-trip of the crate's examples,
through the registry containing `Foo` and `Bar`. -/
theorem serialize_then_deserialize_roundtrip_witness :
    deserialize_trait_object exampleRegistry
      (serialize_trait_object "Foo" (Value.vstr "A")) =
      .ok (Example.foo "A") :=
  serialize_then_deserialize_roundtrip exampleRegistry "Foo" Value.vstr
    Example.foo Foo.deserializeFn rfl (fun _ => rfl) "A"

/-- C2 counterexample: the trait-object visitor — the only decoding code
of the crate — accepts a map with two entries: it consumes the first
id-value pair, returns its decoded value, and leaves the second entry
unconsumed. Decoding does not fail even though the map has two entries,
so failure on more-than-one-entry maps is not enforced by this code
(it is left to the underlying format). -/
theorem visitMap_two_entries_accepted :
    DeserializeTraitObject.visitMap exampleRegistry
      [("Foo", Value.vstr "x"), ("Bar", Value.vnat 1)] =
      .ok (Example.foo "x", [("Bar", Value.vnat 1)]) ∧
    ([("Foo", Value.vstr "x"), ("Bar", Value.vnat 1)] :
      List (String × Value)).length ≠ 1 :=
  ⟨rfl, by decide⟩

/-- C2 amended: for every registry and input map, the visitor fails with
the structural "expecting an id-value pair" error when the map contains
zero entries, regardless of the registry's contents; when the map
contains at least one entry, the visitor consumes exactly the first
id-value pair, leaving the remaining entries to the underlying format. -/
theorem visitMap_entry_discipline {O I : Type} [DecidableEq I]
    (r : MapRegistry O I) (entries : List (I × Value)) :
    (entries = [] →
      DeserializeTraitObject.visitMap r entries =
        .error (.expectingIdValuePair r.trait_object_name)) ∧
    (∀ k v rest o rem, entries = (k, v) :: rest →
      DeserializeTraitObject.visitMap r entries = .ok (o, rem) →
      rem = rest) := by
  refine ⟨fun h => ?_, fun k v rest o rem he hok => ?_⟩
  · subst h
    rfl
  · subst he
    simp only [DeserializeTraitObject.visitMap] at hok
    cases hfn : idToDeserializeFn r k with
    | error e => simp [hfn] at hok
    | ok f =>
      cases hv : deserializeWithFn (I := I) f v with
      | error e => simp [hfn, hv] at hok
      | ok o' =>
        simp [hfn, hv] at hok
        exact hok.2.symm

/-- Witness for C2's amended theorem: the empty map fails structurally,
and on a two-entry map the visitor's leftover is exactly the tail. -/
theorem visitMap_entry_discipline_witness :
    DeserializeTraitObject.visitMap exampleRegistry
      ([] : List (String × Value)) =
      .error (.expectingIdValuePair exampleRegistry.trait_object_name) ∧
    ([("Bar", Value.vnat 1)] : List (String × Value)) =
      [("Bar", Value.vnat 1)] :=
  ⟨(visitMap_entry_discipline exampleRegistry []).1 rfl,
   (visitMap_entry_discipline exampleRegistry
      [("Foo", Value.vstr "x"), ("Bar", Value.vnat 1)]).2
      "Foo" (Value.vstr "x") [("Bar", Value.vnat 1)]
      (Example.foo "x") [("Bar", Value.vnat 1)] rfl rfl⟩

/-- C3: evaluation of the identifier string codec at the failing input
`Ident::I3("x", "y", "z")`. Its string form is `"x/y/z"`, but parsing
that string yields `Ident::I3("x", "x", "y/z")`, not the original
identifier: the deserializer splits the original string at an index
computed inside `b_no_sep` (src/id.rs, `str.split_at(idx_b)`), so
three-segment identifiers do not round-trip even when no segment
contains the separator. -/
theorem ident_three_segments_no_roundtrip :
    Ident.deserialize (Ident.display (.i3 ['x'] ['y'] ['z'])) =
      .i3 ['x'] ['x'] ['y', '/', 'z'] ∧
    Ident.deserialize (Ident.display (.i3 ['x'] ['y'] ['z'])) ≠
      .i3 ['x'] ['y'] ['z'] := by
  constructor
  · rfl
  · decide

/-- C6: in the permissive decode variant, an envelope whose identifier
resolves to `NotRegistered` decodes to the absent value `none` instead
of an error, while an identifier that resolves to
`MultipleRegistrations` still fails hard with that registry error. -/
theorem permissive_absent_vs_ambiguous {O I : Type} [DecidableEq I]
    (r : MapRegistry O I) (k : I) (v : Value) (rest : List (I × Value)) :
    (r.get_deserialize_fn k = .error (.notRegistered k) →
      (PermissiveDeserializeTraitObject.visitMap r ((k, v) :: rest)).map
        (fun x => x.1) = .ok none) ∧
    (r.get_deserialize_fn k = .error (.multipleRegistrations k) →
      PermissiveDeserializeTraitObject.visitMap r ((k, v) :: rest) =
        .error (.registry (.multipleRegistrations k))) := by
  constructor <;> intro h <;>
    simp [PermissiveDeserializeTraitObject.visitMap,
      permissiveIdToDeserializeFn, h, Except.map]

/-- Witness for C6: in `duplicateRegistry`, "Baz" is unknown (decodes to
`none`) and "Foo" is tombstoned (decoding fails hard). -/
theorem permissive_absent_vs_ambiguous_witness :
    (PermissiveDeserializeTraitObject.visitMap duplicateRegistry
      [("Baz", Value.vnat 0)]).map (fun x => x.1) = .ok none ∧
    PermissiveDeserializeTraitObject.visitMap duplicateRegistry
      [("Foo", Value.vnat 0)] =
      .error (.registry (.multipleRegistrations "Foo")) :=
  ⟨(permissive_absent_vs_ambiguous duplicateRegistry "Baz"
      (Value.vnat 0) []).1 rfl,
   (permissive_absent_vs_ambiguous duplicateRegistry "Foo"
      (Value.vnat 0) []).2 rfl⟩

/-- C7: serializing a trait object produces exactly one map entry whose
key is the identifier and whose value is the value's own type-erased
encoding. Serialization takes no registry (as in the source signature)
and is therefore unaffected by registrations: even when the registry has
duplicate registrations for the id — so that decoding the very envelope
just produced fails with `MultipleRegistrations` — encoding succeeds
with the same single-entry map. -/
theorem serialize_trait_object_single_entry (id : String)
    (payload : Value) :
    serialize_trait_object id payload = .vmap [(id, payload)] ∧
    ∀ (O : Type) (r : MapRegistry O String),
      r.get_deserialize_fn id = .error (.multipleRegistrations id) →
      deserialize_trait_object r (serialize_trait_object id payload) =
        .error (.registry (.multipleRegistrations id)) := by
  refine ⟨rfl, fun O r h => ?_⟩
  simp [serialize_trait_object, serializeMapBegin, SerializeMap.serializeEntry,
    SerializeMap.finish, deserialize_trait_object,
    DeserializeTraitObject.visitMap, idToDeserializeFn, h]

/-- Witness for C7: encoding a `Foo` payload under the tombstoned id
"Foo" of `duplicateRegistry` still yields the single-entry envelope,
while decoding that envelope fails with `MultipleRegistrations`. -/
theorem serialize_trait_object_single_entry_witness :
    serialize_trait_object "Foo" (Value.vstr "A") =
      .vmap [("Foo", Value.vstr "A")] ∧
    deserialize_trait_object duplicateRegistry
      (serialize_trait_object "Foo" (Value.vstr "A")) =
      .error (.registry (.multipleRegistrations "Foo")) :=
  ⟨(serialize_trait_object_single_entry "Foo" (Value.vstr "A")).1,
   (serialize_trait_object_single_entry "Foo" (Value.vstr "A")).2
     Example duplicateRegistry rfl⟩

/-- C10: in the permissive visitor, when the envelope's identifier is
not registered the visitor returns `none` without reading the entry's
value: the value of the id-value pair is left pending (unconsumed) in
the underlying decoder, and the remaining entries are untouched. -/
theorem permissive_unregistered_leaves_value_unconsumed {O I : Type}
    [DecidableEq I] (r : MapRegistry O I) (k : I) (v : Value)
    (rest : List (I × Value))
    (h : r.get_deserialize_fn k = .error (.notRegistered k)) :
    PermissiveDeserializeTraitObject.visitMap r ((k, v) :: rest) =
      .ok (none, some v, rest) := by
  simp [PermissiveDeserializeTraitObject.visitMap,
    permissiveIdToDeserializeFn, h]

/-- Witness for C10: decoding `{"Unknown": {}}` permissively against the
example registry returns `none` with the payload `{}` unconsumed. -/
theorem permissive_unregistered_leaves_value_unconsumed_witness :
    PermissiveDeserializeTraitObject.visitMap exampleRegistry
      [("Unknown", Value.vmap [])] = .ok (none, some (Value.vmap []), []) :=
  permissive_unregistered_leaves_value_unconsumed exampleRegistry
    "Unknown" (Value.vmap []) [] rfl

/-- Helper for C8: the element loop of `visit_seq` produces, in order,
exactly the elementwise decodes appended to the accumulator's data, and
propagates the first element error. -/
theorem visitSeqLoop_data {O : Type} (r : MapRegistry O String)
    (elements : List Value) (acc : RVec O) :
    (visitSeqLoop r acc elements).map RVec.data =
      (decodeAll r elements).map (fun os => acc.data ++ os) := by
  induction elements generalizing acc with
  | nil => simp [visitSeqLoop, decodeAll, Except.map]
  | cons v rest ih =>
    simp only [visitSeqLoop, decodeAll]
    cases h : deserialize_trait_object r v with
    | error e => simp [Except.map]
    | ok o =>
      rw [ih]
      cases hr : decodeAll r rest with
      | error e => simp [Except.map]
      | ok os => simp [Except.map, RVec.push]

/-- Helper for C8: a successful elementwise decode has one output per
input element. -/
theorem decodeAll_length {O : Type} (r : MapRegistry O String)
    (elements : List Value) (os : List O)
    (h : decodeAll r elements = .ok os) : os.length = elements.length := by
  induction elements generalizing os with
  | nil =>
    simp [decodeAll] at h
    subst h
    rfl
  | cons v rest ih =>
    simp only [decodeAll] at h
    cases hd : deserialize_trait_object r v with
    | error e => simp [hd] at h
    | ok o =>
      cases hr : decodeAll r rest with
      | error e => simp [hd, hr] at h
      | ok os' =>
        simp [hd, hr] at h
        subst h
        simp [ih os' hr]

/-- C8: if every tagged envelope in the input sequence decodes, the
sequence adapter returns a container holding exactly those decodes in
input order (one per input element), and the underlying decoder's size
hint influences only the container's capacity, never its contents. -/
theorem visitSeq_preserves_order {O : Type}
    (r : MapRegistry O String) (sizeHint : Option Nat)
    (elements : List Value) (os : List O)
    (h : decodeAll r elements = .ok os) :
    (∃ c, DeserializeVecWithTraitObject.visitSeq r sizeHint elements =
        .ok ⟨c, os⟩) ∧
    os.length = elements.length ∧
    ∀ h₁ h₂ : Option Nat,
      (DeserializeVecWithTraitObject.visitSeq r h₁ elements).map RVec.data =
      (DeserializeVecWithTraitObject.visitSeq r h₂ elements).map RVec.data := by
  have hdata : ∀ hint : Option Nat,
      (DeserializeVecWithTraitObject.visitSeq r hint elements).map RVec.data =
        (decodeAll r elements).map (fun l => l) := by
    intro hint
    cases hint with
    | none =>
      simpa [DeserializeVecWithTraitObject.visitSeq, RVec.new] using
        visitSeqLoop_data r elements RVec.new
    | some c =>
      simpa [DeserializeVecWithTraitObject.visitSeq, RVec.withCapacity] using
        visitSeqLoop_data r elements (RVec.withCapacity c)
  refine ⟨?_, decodeAll_length r elements os h,
    fun h₁ h₂ => by rw [hdata h₁, hdata h₂]⟩
  have hd := hdata sizeHint
  rw [h] at hd
  cases hv : DeserializeVecWithTraitObject.visitSeq r sizeHint elements with
  | error e =>
    rw [hv] at hd
    simp [Except.map] at hd
  | ok vec =>
    rw [hv] at hd
    cases vec with
    | mk c d =>
      simp [Except.map] at hd
      subst hd
      exact ⟨c, rfl⟩

/-- Witness for C8: the spec's example sequence `[Foo("x"), Bar(1)]`,
encoded then decoded with the registry containing both. -/
theorem visitSeq_preserves_order_witness :
    (∃ c, DeserializeVecWithTraitObject.visitSeq exampleRegistry (some 5)
        [serialize_trait_object "Foo" (Value.vstr "x"),
         serialize_trait_object "Bar" (Value.vnat 1)] =
        .ok ⟨c, [Example.foo "x", Example.bar 1]⟩) ∧
    ([Example.foo "x", Example.bar 1].length =
      [serialize_trait_object "Foo" (Value.vstr "x"),
       serialize_trait_object "Bar" (Value.vnat 1)].length) :=
  ⟨(visitSeq_preserves_order exampleRegistry (some 5)
      [serialize_trait_object "Foo" (Value.vstr "x"),
       serialize_trait_object "Bar" (Value.vnat 1)]
      [Example.foo "x", Example.bar 1] rfl).1,
   (visitSeq_preserves_order exampleRegistry (some 5)
      [serialize_trait_object "Foo" (Value.vstr "x"),
       serialize_trait_object "Bar" (Value.vnat 1)]
      [Example.foo "x", Example.bar 1] rfl).2.1⟩

/-- Helper for C9: lookup after a single `FirstMapRegistry::register`
call — an existing binding is kept, a fresh id gets the new function. -/
theorem firstRegister_lookup {O I : Type} [DecidableEq I]
    (r : FirstMapRegistry O I) (k : I) (g : DeserializeFn O) (id : I) :
    assocLookup (r.register k g).deserialize_fns id =
      match assocLookup r.deserialize_fns id with
      | some v => some v
      | none => if k = id then some g else none := by
  unfold FirstMapRegistry.register
  cases h : assocLookup r.deserialize_fns k with
  | some w =>
    simp only [h, Option.isSome_some, if_true]
    cases h2 : assocLookup r.deserialize_fns id with
    | some v => simp [h2]
    | none =>
      by_cases hk : k = id
      · subst hk
        rw [h] at h2
        cases h2
      · simp [h2, hk]
  | none =>
    simp only [h, Option.isSome_none, Bool.false_eq_true, if_false,
      assocLookup_append]
    cases h2 : assocLookup r.deserialize_fns id <;> simp [h2, assocLookup]

/-- Helper for C9: lookup after a sequence of `register` calls starting
from registry `r` — the earliest binding wins. -/
theorem firstRegisterAll_lookup {O I : Type} [DecidableEq I]
    (regs : List (I × DeserializeFn O)) (r : FirstMapRegistry O I)
    (id : I) :
    assocLookup (r.registerAll regs).deserialize_fns id =
      match assocLookup r.deserialize_fns id with
      | some g => some g
      | none => assocLookup regs id := by
  induction regs generalizing r with
  | nil =>
    cases h : assocLookup r.deserialize_fns id <;>
      simp [FirstMapRegistry.registerAll, assocLookup, h]
  | cons p rest ih =>
    obtain ⟨k, g⟩ := p
    show assocLookup ((r.register k g).registerAll rest).deserialize_fns id = _
    rw [ih, firstRegister_lookup]
    cases h2 : assocLookup r.deserialize_fns id with
    | some v => simp [h2]
    | none =>
      by_cases hk : k = id <;> simp [assocLookup, hk]

/-- C9: under the first-registration-wins policy, registering an id that
already has an entry leaves the registry unchanged; for every sequence
of `register` calls from a fresh registry, `get_deserialize_fn` returns
the first function registered for the id (or `NotRegistered` when none
was), and it can never return `MultipleRegistrations`. -/
theorem firstRegistry_first_registration_wins {O I : Type} [DecidableEq I]
    (name : String) (regs : List (I × DeserializeFn O)) (id : I)
    (r : FirstMapRegistry O I) (f : DeserializeFn O) :
    ((assocLookup r.deserialize_fns id).isSome = true →
      r.register id f = r) ∧
    (((FirstMapRegistry.new name).registerAll regs).get_deserialize_fn id =
      match assocLookup regs id with
      | some g => .ok g
      | none => .error (.notRegistered id)) ∧
    ∀ r' : FirstMapRegistry O I,
      r'.get_deserialize_fn id ≠ .error (.multipleRegistrations id) := by
  refine ⟨fun h => ?_, ?_, fun r' => ?_⟩
  · simp [FirstMapRegistry.register, h]
  · have hl := firstRegisterAll_lookup regs (FirstMapRegistry.new name) id
    rw [FirstMapRegistry.get_deserialize_fn, hl]
    cases h2 : assocLookup regs id <;>
      simp [FirstMapRegistry.new, assocLookup]
  · rw [FirstMapRegistry.get_deserialize_fn]
    cases h2 : assocLookup r'.deserialize_fns id <;> simp

/-- Witness for C9: registering "Foo" twice (as in
examples/first_registration.rs) keeps the first function; lookup finds
the first registration; `MultipleRegistrations` is never produced. -/
theorem firstRegistry_first_registration_wins_witness :
    FirstMapRegistry.register
      (⟨[("Foo", Foo.deserializeFn)], "ExampleObj"⟩ :
        FirstMapRegistry Example String) "Foo" Bar.deserializeFn =
      (⟨[("Foo", Foo.deserializeFn)], "ExampleObj"⟩ :
        FirstMapRegistry Example String) ∧
    ((FirstMapRegistry.new "ExampleObj").registerAll
      [("Foo", Foo.deserializeFn),
       ("Foo", Bar.deserializeFn)]).get_deserialize_fn "Foo" =
      .ok Foo.deserializeFn ∧
    (⟨[], "ExampleObj"⟩ :
      FirstMapRegistry Example String).get_deserialize_fn "Foo" ≠
      .error (.multipleRegistrations "Foo") :=
  ⟨(firstRegistry_first_registration_wins "ExampleObj"
      [("Foo", Foo.deserializeFn), ("Foo", Bar.deserializeFn)] "Foo"
      ⟨[("Foo", Foo.deserializeFn)], "ExampleObj"⟩ Bar.deserializeFn).1 rfl,
   (firstRegistry_first_registration_wins "ExampleObj"
      [("Foo", Foo.deserializeFn), ("Foo", Bar.deserializeFn)] "Foo"
      ⟨[("Foo", Foo.deserializeFn)], "ExampleObj"⟩ Bar.deserializeFn).2.1,
   (firstRegistry_first_registration_wins "ExampleObj"
      [("Foo", Foo.deserializeFn), ("Foo", Bar.deserializeFn)] "Foo"
      ⟨[("Foo", Foo.deserializeFn)], "ExampleObj"⟩ Bar.deserializeFn).2.2
      ⟨[], "ExampleObj"⟩⟩
